import Mathlib

/-!
Shallow embedding of the Studevo backend (backend/server.js together with the
mongoose schemas in backend/models/Post.js, Organization.js, Student.js).

JavaScript/mongoose conventions modelled explicitly:
  * request-body fields that may be absent are `Option String`; JS truthiness
    of a string-or-undefined value (`!x`) is `truthy`;
  * `x || d` on such a value is `jsOr x d`;
  * `new Date(str)` either yields a time value or `NaN`; a request date field
    is a `DateStr`: absent/empty (falsy), a string that parses to a time, or a
    string whose parse is `NaN`;
  * mongoose `trim: true` setters (JS `String.prototype.trim`) are `jsTrim`;
  * `mongoose.Types.ObjectId.isValid` on a string accepts a 24-char hex
    string or any 12-char string;
  * the document store is a `Db` value threaded through each handler;
  * bcrypt hashing/comparison are function parameters of the handlers.

The repository history has two revisions of the Post schema differing only in
the `applicationLink` field (optional free text with default "" vs. required
URL matching `^https?://`); the schema-level validator for that field is a
parameter `linkValid` of the Post handlers, with both revisions provided as
`appLinkValidatorV1` and `appLinkValidatorV2`.
-/

/-- JS truthiness of a string-valued body field (`undefined` and `""` are falsy). -/
def truthy : Option String → Bool
  | none => false
  | some s => !s.isEmpty

/-- JS `x || d` for a string-or-undefined value `x`. -/
def jsOr (x : Option String) (d : String) : String :=
  match x with
  | none => d
  | some s => if s.isEmpty then d else s

/-- JS `String.prototype.trim` (the mongoose `trim: true` setter): strip
leading and trailing whitespace. -/
def jsTrim (s : String) : String :=
  ⟨((s.data.dropWhile Char.isWhitespace).reverse.dropWhile Char.isWhitespace).reverse⟩

/-- A date-valued request field as JS sees it: absent/empty string (falsy),
a string that `new Date` parses to time `t`, or a string whose parse is `NaN`. -/
inductive DateStr where
  | empty : DateStr
  | invalid : String → DateStr
  | valid : Int → DateStr
deriving Repr, DecidableEq

/-- `parseDate` from backend/server.js: `if (!str) return null; const d = new
Date(str); return isNaN(d.getTime()) ? null : d;`. -/
def parseDate : DateStr → Option Int
  | .empty => none
  | .invalid _ => none
  | .valid t => some t

def isHexChar (c : Char) : Bool :=
  c.isDigit || ('a' ≤ c && c ≤ 'f') || ('A' ≤ c && c ≤ 'F')

/-- `mongoose.Types.ObjectId.isValid` restricted to string arguments:
a 24-character hex string, or any 12-character string. -/
def isValidObjectId (s : String) : Bool :=
  (s.length == 24 && s.toList.all isHexChar) || s.length == 12

/-- A stored Student document (backend/models/Student.js).  CV fields are
`Option String` because mongoose leaves unset paths absent; all string paths
in this schema carry `trim: true` except `password`. -/
structure Student where
  id : String
  email : String
  password : String
  firstName : Option String
  lastName : Option String
  phone : Option String
  address : Option String
  education : Option String
  skills : Option String
  experience : Option String
  projects : Option String
  certifications : Option String
deriving Repr, DecidableEq

/-- A stored Organization document (backend/models/Organization.js). -/
structure Organization where
  id : String
  orgName : String
  email : String
  phone : String
  password : String
deriving Repr, DecidableEq

/-- A stored Post document (backend/models/Post.js).  `createdAt` is the
`timestamps: true` creation time (used by `sort` in the list handler) and
`v` is mongoose's internal `__v` bookkeeping field. -/
structure Post where
  id : String
  orgId : String
  orgName : String
  title : String
  type : String
  description : String
  location : String
  durationStart : Option Int
  durationEnd : Option Int
  deadline : Option Int
  applicationLink : String
  status : String
  createdAt : Nat
  v : Nat
deriving Repr, DecidableEq

/-- A Post as returned by the public list branch: `.select('-__v')` strips
the `__v` bookkeeping field. -/
structure PublicPost where
  id : String
  orgId : String
  orgName : String
  title : String
  type : String
  description : String
  location : String
  durationStart : Option Int
  durationEnd : Option Int
  deadline : Option Int
  applicationLink : String
  status : String
  createdAt : Nat
deriving Repr, DecidableEq

/-- Projection performed by `.select('-__v')`. -/
def stripV (p : Post) : PublicPost :=
  { id := p.id, orgId := p.orgId, orgName := p.orgName, title := p.title,
    type := p.type, description := p.description, location := p.location,
    durationStart := p.durationStart, durationEnd := p.durationEnd,
    deadline := p.deadline, applicationLink := p.applicationLink,
    status := p.status, createdAt := p.createdAt }

/-- The document store: the three collections. -/
structure Db where
  students : List Student
  orgs : List Organization
  posts : List Post
deriving Repr, DecidableEq

/-- An HTTP outcome: `ok` is the 2xx JSON payload, `err` a status code with
the JSON `error` string. -/
inductive ApiResult (α : Type) where
  | ok : α → ApiResult α
  | err : Nat → String → ApiResult α
deriving Repr, DecidableEq

/-- Revision 1 of the Post schema: `applicationLink` has no validator
(optional free text, default `''`). -/
def appLinkValidatorV1 : String → Bool := fun _ => true

/-- Revision 2 of the Post schema: `applicationLink` is required and must
match `/^(https?:\/\/)/`. -/
def appLinkValidatorV2 : String → Bool := fun v =>
  v.startsWith "http://" || v.startsWith "https://"

def postTypeEnum : List String := ["Internship", "Volunteering", "Mentorship", "Event"]

/-! ## Auth component (`POST /api/auth/register`, `POST /api/auth/login`) -/

/-- Request body of `POST /api/auth/register`. `orgTerms` is a boolean-or-absent
flag; every other field is a string-or-absent. -/
structure RegisterReq where
  role : Option String
  firstName : Option String
  lastName : Option String
  email : Option String
  phone : Option String
  password : Option String
  orgName : Option String
  orgTerms : Option Bool
deriving Repr, DecidableEq

/-- `Student.exists({ email: req.body.email })`: mongoose strips `undefined`
values from a query filter, so an absent email matches any document at all. -/
def studentEmailExists (db : Db) (e : Option String) : Bool :=
  match e with
  | none => !db.students.isEmpty
  | some s => db.students.any (fun st => st.email == s)

/-- `Organization.exists({ email: req.body.email })`, same convention. -/
def orgEmailExists (db : Db) (e : Option String) : Bool :=
  match e with
  | none => !db.orgs.isEmpty
  | some s => db.orgs.any (fun o => o.email == s)

structure RegisterOk where
  message : String
  role : String
deriving Repr, DecidableEq

/-- The `POST /api/auth/register` handler.  `hash` is `p ↦ bcrypt.hash(p, salt)`
for this call's salt; `newId` is the identifier the store assigns to the
inserted document.  The student schema trims `email`, `firstName`, `lastName`
and `phone`; a save whose trimmed email is empty fails schema validation,
which the handler's generic catch turns into a 500. -/
def register (hash : String → String) (db : Db) (req : RegisterReq)
    (newId : String) : ApiResult RegisterOk × Db :=
  if !(req.role == some "student" || req.role == some "organization") then
    (.err 400 "Invalid role. Must be \"student\" or \"organization\".", db)
  else if studentEmailExists db req.email || orgEmailExists db req.email then
    (.err 400 "An account with this email already exists.", db)
  else if req.role == some "student" then
    if !(truthy req.firstName && truthy req.lastName && truthy req.email &&
         truthy req.phone && truthy req.password) then
      (.err 400 "All student fields are required.", db)
    else if (jsTrim (jsOr req.email "")).isEmpty then
      (.err 500 "Server error during registration.", db)
    else
      let st : Student :=
        { id := newId, email := jsTrim (jsOr req.email ""),
          password := hash (jsOr req.password ""),
          firstName := some (jsTrim (jsOr req.firstName "")),
          lastName := some (jsTrim (jsOr req.lastName "")),
          phone := some (jsTrim (jsOr req.phone "")),
          address := none, education := none, skills := none,
          experience := none, projects := none, certifications := none }
      (.ok { message := "Student registered successfully!", role := "student" },
       { db with students := db.students ++ [st] })
  else
    if !(truthy req.orgName && truthy req.email && truthy req.password &&
         req.orgTerms.getD false) then
      (.err 400 "All organization fields and terms acceptance are required.", db)
    else
      let org : Organization :=
        { id := newId, orgName := jsOr req.orgName "", email := jsOr req.email "",
          phone := jsOr req.phone "", password := hash (jsOr req.password "") }
      (.ok { message := "Organization registered successfully!", role := "organization" },
       { db with orgs := db.orgs ++ [org] })

structure LoginReq where
  email : Option String
  password : Option String
deriving Repr, DecidableEq

structure LoginOk where
  message : String
  role : String
  email : String
  id : String
  orgId : Option String
deriving Repr, DecidableEq

/-- The `POST /api/auth/login` handler.  `compare` is
`(password, storedHash) ↦ bcrypt.compare(password, storedHash)`.
The handler reads no state, so it returns only the outcome. -/
def login (compare : String → String → Bool) (db : Db) (req : LoginReq) :
    ApiResult LoginOk :=
  if !(truthy req.email && truthy req.password) then
    .err 400 "Email and password are required."
  else
    let e := jsOr req.email ""
    let pw := jsOr req.password ""
    match db.students.find? (fun s => s.email == e) with
    | some s =>
        if compare pw s.password then
          .ok { message := "Login successful", role := "student",
                email := s.email, id := s.id, orgId := none }
        else .err 400 "Invalid credentials."
    | none =>
        match db.orgs.find? (fun o => o.email == e) with
        | some o =>
            if compare pw o.password then
              .ok { message := "Login successful", role := "organization",
                    email := o.email, id := o.id, orgId := some o.id }
            else .err 400 "Invalid credentials."
        | none => .err 400 "Invalid credentials."

/-! ## CV component (`POST /api/cv`) -/

structure SaveCvReq where
  email : Option String
  firstName : Option String
  lastName : Option String
  phone : Option String
  address : Option String
  education : Option String
  skills : Option String
  experience : Option String
  projects : Option String
  certifications : Option String
deriving Repr, DecidableEq

/-- The CV subset echoed back by the handler (no password, no id). -/
structure CvView where
  firstName : Option String
  lastName : Option String
  email : String
  phone : Option String
  address : Option String
  education : Option String
  skills : Option String
  experience : Option String
  projects : Option String
  certifications : Option String
deriving Repr, DecidableEq

def cvViewOf (s : Student) : CvView :=
  { firstName := s.firstName, lastName := s.lastName, email := s.email,
    phone := s.phone, address := s.address, education := s.education,
    skills := s.skills, experience := s.experience, projects := s.projects,
    certifications := s.certifications }

/-- The `POST /api/cv` handler: required-field truthiness check, look the
student up by email, overwrite the profile fields (optional ones via
`x || ''`), save.  All these student paths carry `trim: true`. -/
def saveCV (db : Db) (req : SaveCvReq) : ApiResult CvView × Db :=
  if !(truthy req.email && truthy req.firstName && truthy req.lastName &&
       truthy req.phone) then
    (.err 400 "Email, First Name, Last Name, and Phone are required.", db)
  else
    let e := jsOr req.email ""
    match db.students.find? (fun s => s.email == e) with
    | none => (.err 400 "Student not found.", db)
    | some st =>
        let st' : Student :=
          { st with
            firstName := some (jsTrim (jsOr req.firstName "")),
            lastName := some (jsTrim (jsOr req.lastName "")),
            phone := some (jsTrim (jsOr req.phone "")),
            address := some (jsTrim (jsOr req.address "")),
            education := some (jsTrim (jsOr req.education "")),
            skills := some (jsTrim (jsOr req.skills "")),
            experience := some (jsTrim (jsOr req.experience "")),
            projects := some (jsTrim (jsOr req.projects "")),
            certifications := some (jsTrim (jsOr req.certifications "")) }
        (.ok (cvViewOf st'),
         { db with students :=
             db.students.map (fun s => if s.id == st.id then st' else s) })

/-! ## Post component (`/api/posts` routes) -/

structure CreatePostReq where
  orgId : Option String
  orgName : Option String
  title : Option String
  type : Option String
  description : Option String
  location : Option String
  durationStart : DateStr
  durationEnd : DateStr
  deadline : DateStr
  applicationLink : Option String
  status : Option String
deriving Repr, DecidableEq

structure UpdatePostReq where
  title : Option String
  type : Option String
  description : Option String
  location : Option String
  durationStart : DateStr
  durationEnd : DateStr
  deadline : DateStr
  applicationLink : Option String
deriving Repr, DecidableEq

/-- `start && end && start > end` from both write handlers. -/
def datesInverted (start fin : Option Int) : Bool :=
  match start, fin with
  | some s, some e => s > e
  | _, _ => false

/-- Schema validation run by mongoose on `post.save()` for the paths the
create handler sets (revision-dependent `applicationLink` validator is the
`linkValid` parameter; `orgId` was already checked well-formed, `status`
already checked against the enum by the handler, but the schema re-checks
`status`; `title` is validated after its trim setter). -/
def postSchemaValid (linkValid : String → Bool) (p : Post) : Bool :=
  !p.orgName.isEmpty &&
  (!p.title.isEmpty && p.title.length ≤ 100) &&
  postTypeEnum.contains p.type &&
  (20 ≤ p.description.length && p.description.length ≤ 2000) &&
  linkValid p.applicationLink &&
  (p.status == "draft" || p.status == "active")

/-- The update validators run by `findByIdAndUpdate(..., runValidators: true)`
on exactly the paths the update handler sets. -/
def updatePathsValid (linkValid : String → Bool) (p : Post) : Bool :=
  (!p.title.isEmpty && p.title.length ≤ 100) &&
  postTypeEnum.contains p.type &&
  (20 ≤ p.description.length && p.description.length ≤ 2000) &&
  linkValid p.applicationLink

/-- The `POST /api/posts` handler.  `newId` and `now` are the id and
`createdAt` timestamp the store assigns; a schema `ValidationError` from
`save()` is mapped to 400 by the handler's catch. -/
def createPost (linkValid : String → Bool) (db : Db) (req : CreatePostReq)
    (newId : String) (now : Nat) : ApiResult Post × Db :=
  if !(truthy req.orgId && truthy req.orgName && truthy req.title &&
       truthy req.type && truthy req.description) then
    (.err 400 "orgId, orgName, title, type, and description are required.", db)
  else
    let status := req.status.getD "draft"
    if !(status == "draft" || status == "active") then
      (.err 400 "Status must be \"draft\" or \"active\".", db)
    else if !(isValidObjectId (jsOr req.orgId "")) then
      (.err 400 "Invalid orgId format", db)
    else
      let start := parseDate req.durationStart
      let fin := parseDate req.durationEnd
      let ddl := parseDate req.deadline
      if datesInverted start fin then
        (.err 400 "Start date cannot be after end date.", db)
      else
        let p : Post :=
          { id := newId, orgId := jsOr req.orgId "", orgName := jsOr req.orgName "",
            title := jsTrim (jsOr req.title ""), type := jsOr req.type "",
            description := jsOr req.description "",
            location := jsOr req.location "Remote",
            durationStart := start, durationEnd := fin, deadline := ddl,
            applicationLink := jsTrim (jsOr req.applicationLink ""),
            status := status, createdAt := now, v := 0 }
        if postSchemaValid linkValid p then
          (.ok p, { db with posts := db.posts ++ [p] })
        else
          (.err 400 "ValidationError", db)

/-- The `PUT /api/posts/:id` handler.  A malformed id makes
`findByIdAndUpdate` throw a `CastError`, which this handler's catch maps to
500 (only `ValidationError` gets 400); a failing update validator yields 400
with no write; a missing document yields 404. -/
def updatePost (linkValid : String → Bool) (db : Db) (id : String)
    (req : UpdatePostReq) : ApiResult Post × Db :=
  if !(truthy req.title && truthy req.type && truthy req.description) then
    (.err 400 "Title, type, and description are required.", db)
  else
    let start := parseDate req.durationStart
    let fin := parseDate req.durationEnd
    let ddl := parseDate req.deadline
    if datesInverted start fin then
      (.err 400 "Start date cannot be after end date.", db)
    else if !(isValidObjectId id) then
      (.err 500 "Failed to update post", db)
    else
      match db.posts.find? (fun p => p.id == id) with
      | none => (.err 404 "Post not found", db)
      | some p =>
          let p' : Post :=
            { p with
              title := jsTrim (jsOr req.title ""), type := jsOr req.type "",
              description := jsOr req.description "",
              location := jsOr req.location "Remote",
              durationStart := start, durationEnd := fin, deadline := ddl,
              applicationLink := jsTrim (jsOr req.applicationLink "") }
          if updatePathsValid linkValid p' then
            (.ok p',
             { db with posts := db.posts.map (fun q => if q.id == p.id then p' else q) })
          else
            (.err 400 "ValidationError", db)

/-- The `DELETE /api/posts/:id` handler.  No id-format check: a malformed id
makes `findByIdAndDelete` throw a `CastError`, caught by the only catch and
returned as 500. -/
def deletePost (db : Db) (id : String) : ApiResult String × Db :=
  if !(isValidObjectId id) then
    (.err 500 "Failed to delete post", db)
  else
    match db.posts.find? (fun p => p.id == id) with
    | none => (.err 404 "Post not found", db)
    | some _ =>
        (.ok "Post deleted successfully",
         { db with posts := db.posts.filter (fun p => !(p.id == id)) })

/-- The `GET /api/posts/:id` handler: explicit id-format check (400), then
lookup (404 / 200).  Reads no state. -/
def getPost (db : Db) (id : String) : ApiResult Post :=
  if !(isValidObjectId id) then
    .err 400 "Invalid post ID"
  else
    match db.posts.find? (fun p => p.id == id) with
    | none => .err 404 "Post not found"
    | some p => .ok p

/-- Newest-first order used by `.sort({ createdAt: -1 })`. -/
def newestFirst (a b : Post) : Prop := b.createdAt ≤ a.createdAt

instance : DecidableRel newestFirst := fun a b =>
  inferInstanceAs (Decidable (b.createdAt ≤ a.createdAt))

instance : IsTotal Post newestFirst :=
  ⟨fun a b => Nat.le_total b.createdAt a.createdAt⟩

instance : IsTrans Post newestFirst :=
  ⟨fun _ _ _ hab hbc => Nat.le_trans hbc hab⟩

/-- Outcome of `GET /api/posts`: the org branch returns full documents, the
public branch strips `__v`. -/
inductive ListResult where
  | orgPosts : List Post → ListResult
  | publicPosts : List PublicPost → ListResult
  | badRequest : Nat → String → ListResult
deriving Repr, DecidableEq

/-- The `GET /api/posts` handler.  `orgId` is the query parameter (absent or
a string; `if (orgId)` is JS truthiness). -/
def listPosts (db : Db) (orgId : Option String) : ListResult :=
  if truthy orgId then
    let o := jsOr orgId ""
    if !(isValidObjectId o) then
      .badRequest 400 "Invalid orgId format"
    else
      .orgPosts (List.insertionSort newestFirst (db.posts.filter (fun p => p.orgId == o)))
  else
    .publicPosts
      ((List.insertionSort newestFirst
          (db.posts.filter (fun p => p.status == "active"))).map stripV)

/-- Spec-side description (from the spec's words) of the public list mode:
exactly the active posts, `__v` stripped, newest-first by creation time. -/
def spec_publicList (db : Db) (l : List PublicPost) : Prop :=
  (∀ q, q ∈ l ↔ ∃ p, p ∈ db.posts ∧ p.status = "active" ∧ stripV p = q) ∧
  l.Pairwise (fun a b => b.createdAt ≤ a.createdAt)

/-- Spec-side description (from the spec's words) of the by-organization list
mode: all posts of that organization regardless of status, newest-first. -/
def spec_orgList (db : Db) (o : String) (l : List Post) : Prop :=
  (∀ q, q ∈ l ↔ (q ∈ db.posts ∧ q.orgId = o)) ∧
  l.Pairwise (fun a b => b.createdAt ≤ a.createdAt)

/-! ## Concrete fixtures used to witness the theorems on sample data -/

def oid24 : String := "aaaaaaaaaaaaaaaaaaaaaaaa"

def pid24 : String := "bbbbbbbbbbbbbbbbbbbbbbbb"

def wDb0 : Db := ⟨[], [], []⟩

def wCreateReq : CreatePostReq :=
  { orgId := some oid24, orgName := some "Acme", title := some "Intern",
    type := some "Internship",
    description := some "A wonderful internship opportunity for students",
    location := none, durationStart := .empty, durationEnd := .empty,
    deadline := .empty, applicationLink := none, status := none }

def wCreatedPost : Post :=
  { id := pid24, orgId := oid24, orgName := "Acme", title := "Intern",
    type := "Internship",
    description := "A wonderful internship opportunity for students",
    location := "Remote", durationStart := none, durationEnd := none,
    deadline := none, applicationLink := "", status := "draft",
    createdAt := 5, v := 0 }

def wDb1 : Db := ⟨[], [], [wCreatedPost]⟩

def wBadDatesReq : CreatePostReq :=
  { wCreateReq with durationStart := .valid 10, durationEnd := .valid 5 }

def wStudent : Student :=
  { id := "s1", email := "a@x.com", password := "h", firstName := some "A",
    lastName := some "B", phone := some "1", address := none,
    education := none, skills := none, experience := none, projects := none,
    certifications := none }

def wDbS : Db := ⟨[wStudent], [], []⟩

def wRegReq : RegisterReq :=
  { role := some "organization", firstName := none, lastName := none,
    email := some "a@x.com", phone := none, password := some "pw",
    orgName := some "Acme", orgTerms := some true }

def wStoredPost : Post :=
  { id := pid24, orgId := oid24, orgName := "Acme", title := "Old",
    type := "Event", description := "Old description that is long enough!",
    location := "Onsite", durationStart := some 1, durationEnd := some 2,
    deadline := some 3, applicationLink := "http://a", status := "active",
    createdAt := 1, v := 0 }

def wDbP : Db := ⟨[], [], [wStoredPost]⟩

def wUpdReq : UpdatePostReq :=
  { title := some "New", type := some "Internship",
    description := some "New description that is long enough!",
    location := none, durationStart := .empty, durationEnd := .empty,
    deadline := .empty, applicationLink := none }

def wUpdatedPost : Post :=
  { wStoredPost with
    title := "New", type := "Internship",
    description := "New description that is long enough!",
    location := "Remote", durationStart := none, durationEnd := none,
    deadline := none, applicationLink := "" }

def wDbQ : Db := ⟨[], [], [wUpdatedPost]⟩

def wPostA : Post :=
  { id := "p1", orgId := oid24, orgName := "Acme", title := "A",
    type := "Event", description := "d", location := "Remote",
    durationStart := none, durationEnd := none, deadline := none,
    applicationLink := "", status := "active", createdAt := 10, v := 0 }

def wPostB : Post :=
  { wPostA with id := "p2", status := "draft", createdAt := 20 }

def wPostC : Post :=
  { wPostA with id := "p3", orgId := "cccccccccccccccccccccccc", createdAt := 5 }

def wDbL : Db := ⟨[], [], [wPostA, wPostB, wPostC]⟩

def wPubList : List PublicPost := [stripV wPostA, stripV wPostC]

def wOrgList : List Post := [wPostB, wPostA]

def wCmp : String → String → Bool := fun p h => p == h

def wLoginReq : LoginReq := { email := some "a@x.com", password := some "h" }

def wLoginOut : LoginOk :=
  { message := "Login successful", role := "student", email := "a@x.com",
    id := "s1", orgId := none }

def wBadCvReq : SaveCvReq :=
  { email := none, firstName := none, lastName := none, phone := none,
    address := none, education := none, skills := none, experience := none,
    projects := none, certifications := none }

def wCvReq : SaveCvReq :=
  { wBadCvReq with
    email := some "a@x.com", firstName := some "A",
    lastName := some "B", phone := some "1" }

def wStudentCleared : Student :=
  { wStudent with
    firstName := some "A", lastName := some "B",
    phone := some "1", address := some "", education := some "",
    skills := some "", experience := some "", projects := some "",
    certifications := some "" }

def wDbSCleared : Db := ⟨[wStudentCleared], [], []⟩

/-! ## Helper lemmas -/

/-- Replacing (keyed by `key`) the first `p`-match of a list with an element
that still satisfies `p` makes that element the first `p`-match. -/
theorem find?_map_replace {α : Type} (key : α → String) (p : α → Bool)
    {a a' : α} (h' : p a' = true) :
    ∀ {l : List α}, l.find? p = some a →
      (l.map (fun x => if key x == key a then a' else x)).find? p = some a'
  | [], h => by simp at h
  | x :: l, h => by
      by_cases hx : p x = true
      · rw [List.find?_cons_of_pos _ hx] at h
        injection h with hxa
        subst hxa
        simp only [List.map]
        rw [if_pos (by simp)]
        exact List.find?_cons_of_pos _ h'
      · rw [List.find?_cons_of_neg _ hx] at h
        simp only [List.map]
        by_cases hk : (key x == key a) = true
        · rw [if_pos hk]
          exact List.find?_cons_of_pos _ h'
        · rw [if_neg hk, List.find?_cons_of_neg _ hx]
          exact find?_map_replace key p h' h

/-- Characterization of a successful `PUT /api/posts/:id`: the target was
found, the returned document is the found one with all handler-set paths
replaced, and the store holds the replacement. -/
theorem updatePost_ok {lv : String → Bool} {db : Db} {id : String}
    {req : UpdatePostReq} {p' : Post} {db' : Db}
    (h : updatePost lv db id req = (.ok p', db')) :
    ∃ p, db.posts.find? (fun q => q.id == id) = some p ∧
      p' = { p with
        title := jsTrim (jsOr req.title ""), type := jsOr req.type "",
        description := jsOr req.description "",
        location := jsOr req.location "Remote",
        durationStart := parseDate req.durationStart,
        durationEnd := parseDate req.durationEnd,
        deadline := parseDate req.deadline,
        applicationLink := jsTrim (jsOr req.applicationLink "") } ∧
      db' = { db with posts := db.posts.map (fun q => if q.id == p.id then p' else q) } := by
  simp only [updatePost] at h
  split at h
  · simp at h
  · split at h
    · simp at h
    · split at h
      · simp at h
      · split at h
        · simp at h
        · rename_i p hfind
          split at h
          · rw [Prod.mk.injEq] at h
            obtain ⟨h1, h2⟩ := h
            injection h1 with h1
            refine ⟨p, hfind, h1.symm, ?_⟩
            rw [← h1]
            exact h2.symm
          · simp at h

/-- Characterization of a successful `POST /api/posts`: the returned document
is exactly the handler-built one and it is appended to the collection. -/
theorem createPost_ok {lv : String → Bool} {db : Db} {req : CreatePostReq}
    {newId : String} {now : Nat} {p : Post} {db' : Db}
    (h : createPost lv db req newId now = (.ok p, db')) :
    p = { id := newId, orgId := jsOr req.orgId "", orgName := jsOr req.orgName "",
          title := jsTrim (jsOr req.title ""), type := jsOr req.type "",
          description := jsOr req.description "",
          location := jsOr req.location "Remote",
          durationStart := parseDate req.durationStart,
          durationEnd := parseDate req.durationEnd,
          deadline := parseDate req.deadline,
          applicationLink := jsTrim (jsOr req.applicationLink ""),
          status := req.status.getD "draft", createdAt := now, v := 0 } ∧
    db' = { db with posts := db.posts ++ [p] } := by
  simp only [createPost] at h
  split at h
  · simp at h
  · split at h
    · simp at h
    · split at h
      · simp at h
      · split at h
        · simp at h
        · split at h
          · rw [Prod.mk.injEq] at h
            obtain ⟨h1, h2⟩ := h
            injection h1 with h1
            exact ⟨h1.symm, by rw [← h2, h1]⟩
          · simp at h

/-- Characterization of a successful `POST /api/cv`: the required fields were
truthy, the student was found by email, and the store holds the overwritten
document. -/
theorem saveCV_ok {db : Db} {req : SaveCvReq} {out : CvView} {db' : Db}
    (h : saveCV db req = (.ok out, db')) :
    (truthy req.email && truthy req.firstName && truthy req.lastName &&
      truthy req.phone) = true ∧
    ∃ st st', db.students.find? (fun s => s.email == jsOr req.email "") = some st ∧
      st' = { st with
        firstName := some (jsTrim (jsOr req.firstName "")),
        lastName := some (jsTrim (jsOr req.lastName "")),
        phone := some (jsTrim (jsOr req.phone "")),
        address := some (jsTrim (jsOr req.address "")),
        education := some (jsTrim (jsOr req.education "")),
        skills := some (jsTrim (jsOr req.skills "")),
        experience := some (jsTrim (jsOr req.experience "")),
        projects := some (jsTrim (jsOr req.projects "")),
        certifications := some (jsTrim (jsOr req.certifications "")) } ∧
      out = cvViewOf st' ∧
      db' = { db with students :=
        db.students.map (fun s => if s.id == st.id then st' else s) } := by
  simp only [saveCV] at h
  split at h
  · simp at h
  · rename_i hreq
    have htr : (truthy req.email && truthy req.firstName && truthy req.lastName &&
        truthy req.phone) = true := by
      simpa using hreq
    refine ⟨htr, ?_⟩
    split at h
    · simp at h
    · rename_i st hfind
      rw [Prod.mk.injEq] at h
      obtain ⟨h1, h2⟩ := h
      injection h1 with h1
      exact ⟨st, _, hfind, rfl, h1.symm, h2.symm⟩

/-! ## Claim theorems -/

/-- C1: a Create call with `applicationLink` absent that succeeds (all other
required fields and validations passing, i.e. the handler returns the created
document) yields a Post whose `applicationLink` is the empty string, appended
to the collection.  The schema-revision parameter `lv` is arbitrary; the
witness exhibits a concrete success under revision 1
(`appLinkValidatorV1`, optional free text with default `''`). -/
theorem createPost_absent_link_stored_empty (lv : String → Bool) (db : Db)
    (req : CreatePostReq) (newId : String) (now : Nat) (p : Post) (db' : Db)
    (habs : req.applicationLink = none)
    (h : createPost lv db req newId now = (.ok p, db')) :
    p.applicationLink = "" ∧ db'.posts = db.posts ++ [p] := by
  obtain ⟨hp, hdb'⟩ := createPost_ok h
  subst hdb'
  constructor
  · rw [hp]
    show jsTrim (jsOr req.applicationLink "") = ""
    rw [habs]
    decide
  · rfl

/-- C2: a registration whose email is already stored in the Student or the
Organization collection (whatever the stored account's role and the requested
role) fails with the duplicate-email conflict message and leaves the store
unchanged: no document is inserted into either collection. -/
theorem register_duplicate_email_conflict (hash : String → String) (db : Db)
    (req : RegisterReq) (newId : String) (e : String)
    (hrole : req.role = some "student" ∨ req.role = some "organization")
    (hemail : req.email = some e)
    (hex : (db.students.any (fun st => st.email == e) ||
            db.orgs.any (fun o => o.email == e)) = true) :
    register hash db req newId =
      (.err 400 "An account with this email already exists.", db) := by
  have hr : (req.role == some "student" || req.role == some "organization") = true := by
    rcases hrole with h | h <;> simp [h]
  simp [register, hr, studentEmailExists, orgEmailExists, hemail, hex]

/-- C3: a Create call in which both duration dates parse and the start is
strictly after the end fails with a 400 validation response and the post
collection is unchanged (no document persisted). -/
theorem createPost_inverted_dates_rejected (lv : String → Bool) (db : Db)
    (req : CreatePostReq) (newId : String) (now : Nat) (s e : Int)
    (hs : parseDate req.durationStart = some s)
    (he : parseDate req.durationEnd = some e) (hlt : e < s) :
    ∃ msg, createPost lv db req newId now = (.err 400 msg, db) := by
  simp only [createPost]
  split
  · exact ⟨_, rfl⟩
  · split
    · exact ⟨_, rfl⟩
    · split
      · exact ⟨_, rfl⟩
      · split
        · exact ⟨_, rfl⟩
        · rename_i hni
          rw [hs, he] at hni
          simp [datesInverted] at hni
          exact absurd hlt (by omega)

/-- C6: an unparseable date string supplied for `durationStart`,
`durationEnd` or `deadline` is treated by Create and Update exactly as if the
field were absent: the handler outcome and resulting store are identical. -/
theorem unparseable_date_same_as_absent (lv : String → Bool) (db : Db)
    (req : CreatePostReq) (ureq : UpdatePostReq) (newId id s : String) (now : Nat) :
    (createPost lv db { req with durationStart := .invalid s } newId now =
       createPost lv db { req with durationStart := .empty } newId now) ∧
    (createPost lv db { req with durationEnd := .invalid s } newId now =
       createPost lv db { req with durationEnd := .empty } newId now) ∧
    (createPost lv db { req with deadline := .invalid s } newId now =
       createPost lv db { req with deadline := .empty } newId now) ∧
    (updatePost lv db id { ureq with durationStart := .invalid s } =
       updatePost lv db id { ureq with durationStart := .empty }) ∧
    (updatePost lv db id { ureq with durationEnd := .invalid s } =
       updatePost lv db id { ureq with durationEnd := .empty }) ∧
    (updatePost lv db id { ureq with deadline := .invalid s } =
       updatePost lv db id { ureq with deadline := .empty }) :=
  ⟨rfl, rfl, rfl, rfl, rfl, rfl⟩

/-- C10: Delete performs no id-format validation before querying storage: on
a malformed id it returns 500 (the `CastError` from `findByIdAndDelete` hits
the generic catch), not 400 and not 404, whereas Get rejects the same id
with a 400 validation response. -/
theorem deletePost_malformed_id_is_500 (db : Db) (id : String)
    (hbad : isValidObjectId id = false) :
    deletePost db id = (.err 500 "Failed to delete post", db) ∧
    getPost db id = .err 400 "Invalid post ID" := by
  constructor <;> simp [deletePost, getPost, hbad]

/-- C4: Update is a full replace, not a partial patch.  For any stored state,
a successful update whose request omits `location`, both duration dates and
`applicationLink` leaves the stored document with `location = "Remote"`, no
duration dates and an empty `applicationLink`, regardless of the values
stored before the update. -/
theorem updatePost_omitted_fields_reset (lv : String → Bool) (db : Db)
    (id : String) (req : UpdatePostReq) (p' : Post) (db' : Db)
    (hloc : req.location = none) (hds : req.durationStart = .empty)
    (hde : req.durationEnd = .empty) (hal : req.applicationLink = none)
    (h : updatePost lv db id req = (.ok p', db')) :
    p'.location = "Remote" ∧ p'.durationStart = none ∧ p'.durationEnd = none ∧
    p'.applicationLink = "" ∧
    db'.posts.find? (fun q => q.id == id) = some p' := by
  obtain ⟨p, hfind, hp', hdb'⟩ := updatePost_ok h
  have hq := List.find?_some hfind
  have hpid : (p'.id == id) = true := by rw [hp']; exact hq
  refine ⟨?_, ?_, ?_, ?_, ?_⟩
  · rw [hp']
    show jsOr req.location "Remote" = "Remote"
    rw [hloc]
    decide
  · rw [hp']
    show parseDate req.durationStart = none
    rw [hds]
    decide
  · rw [hp']
    show parseDate req.durationEnd = none
    rw [hde]
    decide
  · rw [hp']
    show jsTrim (jsOr req.applicationLink "") = ""
    rw [hal]
    decide
  · rw [hdb']
    exact find?_map_replace Post.id (fun q => q.id == id) hpid hfind

/-- C5: a successful Update never changes the stored `status`, `orgId` or
`orgName`: the updated document agrees with the pre-update document on all
three, so no update moves a post between draft and active. -/
theorem updatePost_preserves_status_orgId_orgName (lv : String → Bool) (db : Db)
    (id : String) (req : UpdatePostReq) (p' : Post) (db' : Db)
    (h : updatePost lv db id req = (.ok p', db')) :
    ∃ p, db.posts.find? (fun q => q.id == id) = some p ∧
      db'.posts.find? (fun q => q.id == id) = some p' ∧
      p'.status = p.status ∧ p'.orgId = p.orgId ∧ p'.orgName = p.orgName := by
  obtain ⟨p, hfind, hp', hdb'⟩ := updatePost_ok h
  have hq := List.find?_some hfind
  have hpid : (p'.id == id) = true := by rw [hp']; exact hq
  refine ⟨p, hfind, ?_, ?_, ?_, ?_⟩
  · rw [hdb']
    exact find?_map_replace Post.id (fun q => q.id == id) hpid hfind
  · rw [hp']
  · rw [hp']
  · rw [hp']

/-- C9: SaveCV requires truthy email, firstName, lastName and phone, failing
with 400 before any write otherwise; on success each optional profile field
omitted from the request is destructively set to the empty string in the
stored student record. -/
theorem saveCV_requires_and_clears (db : Db) (req : SaveCvReq) :
    ((truthy req.email && truthy req.firstName && truthy req.lastName &&
       truthy req.phone) = false →
      saveCV db req =
        (.err 400 "Email, First Name, Last Name, and Phone are required.", db)) ∧
    (∀ out db' e, saveCV db req = (.ok out, db') → req.email = some e →
      ∃ st', db'.students.find? (fun s => s.email == e) = some st' ∧
        (req.address = none → st'.address = some "") ∧
        (req.education = none → st'.education = some "") ∧
        (req.skills = none → st'.skills = some "") ∧
        (req.experience = none → st'.experience = some "") ∧
        (req.projects = none → st'.projects = some "") ∧
        (req.certifications = none → st'.certifications = some "")) := by
  constructor
  · intro hreq
    simp [saveCV, hreq]
  · intro out db' e h he
    obtain ⟨htr, st, st', hfind, hst', _, hdb'⟩ := saveCV_ok h
    have hem : truthy req.email = true := by
      cases hq : truthy req.email
      · rw [hq] at htr
        simp at htr
      · rfl
    have hne : e.isEmpty = false := by
      rw [he] at hem
      simpa [truthy] using hem
    have hji : jsOr req.email "" = e := by
      rw [he]
      simp [jsOr, hne]
    rw [hji] at hfind
    have hq := List.find?_some hfind
    have hsem : (st'.email == e) = true := by
      rw [hst']
      exact hq
    refine ⟨st', ?_, ?_, ?_, ?_, ?_, ?_, ?_⟩
    · rw [hdb']
      exact find?_map_replace Student.id (fun s => s.email == e) hsem hfind
    · intro hnone
      rw [hst']
      show some (jsTrim (jsOr req.address "")) = some ""
      rw [hnone]
      decide
    · intro hnone
      rw [hst']
      show some (jsTrim (jsOr req.education "")) = some ""
      rw [hnone]
      decide
    · intro hnone
      rw [hst']
      show some (jsTrim (jsOr req.skills "")) = some ""
      rw [hnone]
      decide
    · intro hnone
      rw [hst']
      show some (jsTrim (jsOr req.experience "")) = some ""
      rw [hnone]
      decide
    · intro hnone
      rw [hst']
      show some (jsTrim (jsOr req.projects "")) = some ""
      rw [hnone]
      decide
    · intro hnone
      rw [hst']
      show some (jsTrim (jsOr req.certifications "")) = some ""
      rw [hnone]
      decide

/-- C8: a successful login's role always names a collection that actually
holds the supplied email — role "student" only when the Student collection
contains it, role "organization" only when the Organization collection
contains it — for every possible bcrypt comparison function. -/
theorem login_role_matches_collection (compare : String → String → Bool)
    (db : Db) (req : LoginReq) (out : LoginOk)
    (h : login compare db req = .ok out) :
    (out.role = "student" ∧ ∃ s, s ∈ db.students ∧ req.email = some s.email) ∨
    (out.role = "organization" ∧ ∃ o, o ∈ db.orgs ∧ req.email = some o.email) := by
  simp only [login] at h
  split at h
  · simp at h
  · rename_i hcond
    have hab : (truthy req.email && truthy req.password) = true := by
      simpa using hcond
    have hem : truthy req.email = true := by
      cases hq : truthy req.email
      · rw [hq] at hab
        simp at hab
      · rfl
    obtain ⟨e0, he0⟩ : ∃ e0, req.email = some e0 := by
      cases hq : req.email
      · rw [hq] at hem
        simp [truthy] at hem
      · exact ⟨_, rfl⟩
    have hne : e0.isEmpty = false := by
      rw [he0] at hem
      simpa [truthy] using hem
    have hji : jsOr req.email "" = e0 := by
      rw [he0]
      simp [jsOr, hne]
    rw [hji] at h
    split at h
    · rename_i s hseq
      split at h
      · injection h with h
        subst h
        left
        refine ⟨rfl, s, List.mem_of_find?_eq_some hseq, ?_⟩
        have hsem := List.find?_some hseq
        have : s.email = e0 := by simpa using hsem
        rw [he0, this]
      · simp at h
    · split at h
      · rename_i o hoeq
        split at h
        · injection h with h
          subst h
          right
          refine ⟨rfl, o, List.mem_of_find?_eq_some hoeq, ?_⟩
          have hoem := List.find?_some hoeq
          have : o.email = e0 := by simpa using hoem
          rw [he0, this]
        · simp at h
      · simp at h

/-- C7: the public list mode (no orgId) returns exactly the active posts,
`__v` stripped, newest-first; the by-organization mode with a well-formed
orgId returns all that organization's posts regardless of status,
newest-first. -/
theorem listPosts_two_modes (db : Db) (o : String)
    (l₁ : List PublicPost) (l₂ : List Post)
    (h₁ : listPosts db none = .publicPosts l₁)
    (h₂ : listPosts db (some o) = .orgPosts l₂) :
    spec_publicList db l₁ ∧ spec_orgList db o l₂ := by
  have hl₁ : l₁ = (List.insertionSort newestFirst
      (db.posts.filter (fun p => p.status == "active"))).map stripV := by
    simp [listPosts, truthy] at h₁
    exact h₁.symm
  cases ho : o.isEmpty with
  | true => simp [listPosts, truthy, ho] at h₂
  | false =>
    cases hv : isValidObjectId o with
    | false => simp [listPosts, truthy, ho, jsOr, hv] at h₂
    | true =>
      have hl₂ : l₂ = List.insertionSort newestFirst
          (db.posts.filter (fun p => p.orgId == o)) := by
        simp [listPosts, truthy, ho, jsOr, hv] at h₂
        exact h₂.symm
      subst hl₁ hl₂
      refine ⟨⟨?_, ?_⟩, ⟨?_, ?_⟩⟩
      · intro q
        simp only [List.mem_map, List.mem_insertionSort, List.mem_filter]
        constructor
        · rintro ⟨p, ⟨hp, hs⟩, hq⟩
          exact ⟨p, hp, by simpa using hs, hq⟩
        · rintro ⟨p, hp, hs, hq⟩
          exact ⟨p, ⟨hp, by simpa using hs⟩, hq⟩
      · exact List.Pairwise.map stripV (fun a b hab => hab)
          (List.sorted_insertionSort newestFirst _)
      · intro q
        simp only [List.mem_insertionSort, List.mem_filter]
        constructor
        · rintro ⟨hq, hs⟩
          exact ⟨hq, by simpa using hs⟩
        · rintro ⟨hq, hs⟩
          exact ⟨hq, by simpa using hs⟩
      · exact List.sorted_insertionSort newestFirst _

/-! ## Witnesses: each theorem with hypotheses applied at a concrete input -/

/-- Witness for C1 on concrete data: a create with `applicationLink` absent
succeeds under schema revision 1 and stores the empty string. -/
theorem createPost_absent_link_stored_empty_witness :
    wCreateReq.applicationLink = none ∧
    createPost appLinkValidatorV1 wDb0 wCreateReq pid24 5 = (.ok wCreatedPost, wDb1) ∧
    wCreatedPost.applicationLink = "" ∧ wDb1.posts = wDb0.posts ++ [wCreatedPost] := by
  have h : createPost appLinkValidatorV1 wDb0 wCreateReq pid24 5 = (.ok wCreatedPost, wDb1) := by
    decide
  have hc := createPost_absent_link_stored_empty appLinkValidatorV1 wDb0 wCreateReq
    pid24 5 wCreatedPost wDb1 rfl h
  exact ⟨rfl, h, hc.1, hc.2⟩

/-- Witness for C2 on concrete data: registering as an organization with the
email of an existing student is rejected with the conflict message and the
store is unchanged. -/
theorem register_duplicate_email_conflict_witness :
    (wRegReq.role = some "student" ∨ wRegReq.role = some "organization") ∧
    wRegReq.email = some "a@x.com" ∧
    (wDbS.students.any (fun st => st.email == "a@x.com") ||
      wDbS.orgs.any (fun o => o.email == "a@x.com")) = true ∧
    register (fun p => p) wDbS wRegReq "o9" =
      (.err 400 "An account with this email already exists.", wDbS) :=
  ⟨Or.inr rfl, rfl, by decide,
   register_duplicate_email_conflict (fun p => p) wDbS wRegReq "o9" "a@x.com"
     (Or.inr rfl) rfl (by decide)⟩

/-- Witness for C3 on concrete data: start 10, end 5 is rejected with a 400
and the store is unchanged. -/
theorem createPost_inverted_dates_rejected_witness :
    parseDate wBadDatesReq.durationStart = some 10 ∧
    parseDate wBadDatesReq.durationEnd = some 5 ∧ (5 : Int) < 10 ∧
    ∃ msg, createPost appLinkValidatorV1 wDb0 wBadDatesReq pid24 5 = (.err 400 msg, wDb0) :=
  ⟨rfl, rfl, by decide,
   createPost_inverted_dates_rejected appLinkValidatorV1 wDb0 wBadDatesReq
     pid24 5 10 5 rfl rfl (by decide)⟩

/-- Witness for C4 on concrete data: updating a post stored with
location "Onsite", dates and a link, via a request omitting all of them,
resets them to the defaults. -/
theorem updatePost_omitted_fields_reset_witness :
    wUpdReq.location = none ∧ wUpdReq.durationStart = .empty ∧
    wUpdReq.durationEnd = .empty ∧ wUpdReq.applicationLink = none ∧
    updatePost appLinkValidatorV1 wDbP pid24 wUpdReq = (.ok wUpdatedPost, wDbQ) ∧
    (wUpdatedPost.location = "Remote" ∧ wUpdatedPost.durationStart = none ∧
     wUpdatedPost.durationEnd = none ∧ wUpdatedPost.applicationLink = "" ∧
     wDbQ.posts.find? (fun q => q.id == pid24) = some wUpdatedPost) := by
  have h : updatePost appLinkValidatorV1 wDbP pid24 wUpdReq = (.ok wUpdatedPost, wDbQ) := by
    decide
  exact ⟨rfl, rfl, rfl, rfl, h,
    updatePost_omitted_fields_reset appLinkValidatorV1 wDbP pid24 wUpdReq
      wUpdatedPost wDbQ rfl rfl rfl rfl h⟩

/-- Witness for C5 on concrete data: the same successful update leaves
`status`, `orgId` and `orgName` unchanged. -/
theorem updatePost_preserves_status_orgId_orgName_witness :
    updatePost appLinkValidatorV1 wDbP pid24 wUpdReq = (.ok wUpdatedPost, wDbQ) ∧
    (∃ p, wDbP.posts.find? (fun q => q.id == pid24) = some p ∧
      wDbQ.posts.find? (fun q => q.id == pid24) = some wUpdatedPost ∧
      wUpdatedPost.status = p.status ∧ wUpdatedPost.orgId = p.orgId ∧
      wUpdatedPost.orgName = p.orgName) := by
  have h : updatePost appLinkValidatorV1 wDbP pid24 wUpdReq = (.ok wUpdatedPost, wDbQ) := by
    decide
  exact ⟨h, updatePost_preserves_status_orgId_orgName appLinkValidatorV1 wDbP
    pid24 wUpdReq wUpdatedPost wDbQ h⟩

/-- Witness for C7 on concrete data: three posts across two organizations
and both statuses, listed in both modes. -/
theorem listPosts_two_modes_witness :
    listPosts wDbL none = .publicPosts wPubList ∧
    listPosts wDbL (some oid24) = .orgPosts wOrgList ∧
    (spec_publicList wDbL wPubList ∧ spec_orgList wDbL oid24 wOrgList) :=
  ⟨by decide, by decide,
   listPosts_two_modes wDbL oid24 wPubList wOrgList (by decide) (by decide)⟩

/-- Witness for C8 on concrete data: a successful student login, whose role
is backed by the Student collection. -/
theorem login_role_matches_collection_witness :
    login wCmp wDbS wLoginReq = .ok wLoginOut ∧
    ((wLoginOut.role = "student" ∧
        ∃ s, s ∈ wDbS.students ∧ wLoginReq.email = some s.email) ∨
     (wLoginOut.role = "organization" ∧
        ∃ o, o ∈ wDbS.orgs ∧ wLoginReq.email = some o.email)) :=
  ⟨by decide, login_role_matches_collection wCmp wDbS wLoginReq wLoginOut (by decide)⟩

/-- Witness for C9 on concrete data: a request missing the required fields
is rejected with the store unchanged, and a successful save with all
optional fields omitted clears them to the empty string. -/
theorem saveCV_requires_and_clears_witness :
    saveCV wDbS wBadCvReq =
      (.err 400 "Email, First Name, Last Name, and Phone are required.", wDbS) ∧
    saveCV wDbS wCvReq = (.ok (cvViewOf wStudentCleared), wDbSCleared) ∧
    (∃ st', wDbSCleared.students.find? (fun s => s.email == "a@x.com") = some st' ∧
      (wCvReq.address = none → st'.address = some "") ∧
      (wCvReq.education = none → st'.education = some "") ∧
      (wCvReq.skills = none → st'.skills = some "") ∧
      (wCvReq.experience = none → st'.experience = some "") ∧
      (wCvReq.projects = none → st'.projects = some "") ∧
      (wCvReq.certifications = none → st'.certifications = some "")) := by
  have ha := (saveCV_requires_and_clears wDbS wBadCvReq).1 (by decide)
  have h : saveCV wDbS wCvReq = (.ok (cvViewOf wStudentCleared), wDbSCleared) := by
    decide
  have hb := (saveCV_requires_and_clears wDbS wCvReq).2 (cvViewOf wStudentCleared)
    wDbSCleared "a@x.com" h rfl
  exact ⟨ha, h, hb⟩

/-- Witness for C10 on concrete data: the malformed id "abc" gets a 500 from
Delete and a 400 from Get. -/
theorem deletePost_malformed_id_is_500_witness :
    isValidObjectId "abc" = false ∧
    deletePost wDbP "abc" = (.err 500 "Failed to delete post", wDbP) ∧
    getPost wDbP "abc" = .err 400 "Invalid post ID" := by
  have h := deletePost_malformed_id_is_500 wDbP "abc" (by decide)
  exact ⟨by decide, h.1, h.2⟩
